import Mathlib

/-!
Verification of the password-utility core: character-set construction,
diversity-guaranteed generation, entropy computation, strength scoring,
crack-time formatting, analysis recommendations and policy validation.

The Python sources are shallowly embedded: strings become `List Char`,
floats become `ℝ`, random draws become an explicit stream `Nat → Nat`
(each draw `secrets.choice` / `secrets.randbelow m` is modelled as an
arbitrary stream value reduced mod the relevant bound, so quantifying
over streams covers every possible sequence of CSPRNG results), and
raising an exception becomes returning `Except.error`.
-/

/-! ## Character-set constants (src/src/core/constants.py) -/

/-- `string.ascii_uppercase`. -/
def UPPERCASE : List Char := "ABCDEFGHIJKLMNOPQRSTUVWXYZ".toList

/-- `string.ascii_lowercase`. -/
def LOWERCASE : List Char := "abcdefghijklmnopqrstuvwxyz".toList

/-- `string.digits`. -/
def DIGITS : List Char := "0123456789".toList

/-- `string.punctuation`: the 32 ASCII punctuation characters, in ASCII
order. Written as character literals (with hex escapes for quote,
backslash-sensitive and brace characters). -/
def SYMBOLS : List Char :=
  ['!', '\x22', '#', '$', '%', '&', '\x27', '(', ')', '*', '+', ',', '-', '.', '/',
   ':', ';', '<', '=', '>', '?', '@', '[', '\\', ']', '^', '_', '\x60',
   '\x7b', '|', '\x7d', '~']

/-! ## Generation settings (src/config/settings.py) -/

def MIN_PASSWORD_LENGTH : Nat := 4
def MAX_PASSWORD_LENGTH : Nat := 128
def SCORE_WEAK_THRESHOLD : Int := 40
def SCORE_MEDIUM_THRESHOLD : Int := 60
def SCORE_STRONG_THRESHOLD : Int := 80
def BRUTE_FORCE_RATE : Nat := 1000000000

/-! ## Charset options and builder (src/src/generator/charset_builder.py)

The Python `options` dict with keys uppercase/lowercase/numbers/symbols
is embedded as a record of four booleans (`options.get(key, False)`
becomes a field access). -/

structure CharsetOptions where
  uppercase : Bool
  lowercase : Bool
  numbers : Bool
  symbols : Bool
deriving DecidableEq, Repr

/-- The concatenation built up by `CharsetBuilder.build_charset` before
its emptiness check. -/
def build_charset_chars (options : CharsetOptions) : List Char :=
  (if options.uppercase then UPPERCASE else [])
    ++ (if options.lowercase then LOWERCASE else [])
    ++ (if options.numbers then DIGITS else [])
    ++ (if options.symbols then SYMBOLS else [])

/-- `CharsetBuilder.build_charset`: raises `ValueError` when no category
is enabled, otherwise returns the concatenated charset. -/
def build_charset (options : CharsetOptions) : Except String (List Char) :=
  if build_charset_chars options = [] then
    .error "At least one character set must be selected"
  else
    .ok (build_charset_chars options)

/-- `CharsetBuilder.get_required_chars`: the list of enabled category
alphabets, in the fixed category order. -/
def get_required_chars (options : CharsetOptions) : List (List Char) :=
  (if options.uppercase then [UPPERCASE] else [])
    ++ (if options.lowercase then [LOWERCASE] else [])
    ++ (if options.numbers then [DIGITS] else [])
    ++ (if options.symbols then [SYMBOLS] else [])

/-- `CharsetBuilder.validate_options`: `any(options.values())`. -/
def validate_options (options : CharsetOptions) : Bool :=
  options.uppercase || options.lowercase || options.numbers || options.symbols

/-! ## Secure random primitives (src/src/core/security.py) -/

/-- `secure_random_choice`: raises `ValueError` on an empty sequence,
otherwise returns a uniformly drawn element; the raw CSPRNG draw `r` is
reduced modulo the sequence length, so every element is reachable and
every possible draw is covered by quantifying over `r`. -/
def secure_random_choice (sequence : List Char) (r : Nat) : Except String Char :=
  if h : sequence = [] then
    .error "Cannot choose from empty sequence"
  else
    .ok (sequence.get ⟨r % sequence.length,
      Nat.mod_lt r (List.length_pos.mpr h)⟩)

/-- One in-place swap `shuffled[i], shuffled[j] = shuffled[j], shuffled[i]`
of the Fisher-Yates loop, on the list representation. Out-of-range
indices (never hit by the loop) leave the list unchanged. -/
def listSwap {α : Type} (l : List α) (i j : Nat) : List α :=
  match l[i]?, l[j]? with
  | some a, some b => (l.set i b).set j a
  | _, _ => l

/-- The Fisher-Yates loop of `secure_shuffle`: `for i in range(n-1, 0, -1):
j = secrets.randbelow(i + 1); swap i j`. The first argument counts the
remaining iterations (current index `i+1` down to `1`); `k` indexes the
stream of raw random draws, with `secrets.randbelow (i + 1)` modelled as
`rand k % (i + 1)`. -/
def fisher_yates_loop {α : Type} (rand : Nat → Nat) : Nat → Nat → List α → List α
  | 0, _, l => l
  | i + 1, k, l => fisher_yates_loop rand i (k + 1) (listSwap l (i + 1) (rand k % (i + 2)))

/-- `secure_shuffle`: copies the list and runs the Fisher-Yates loop from
index `n - 1` down to `1`. The copy is implicit in the pure embedding:
the argument value is never mutated. -/
def secure_shuffle {α : Type} (items : List α) (rand : Nat → Nat) : List α :=
  fisher_yates_loop rand (items.length - 1) 0 items

/-! ## Password generator (src/src/generator/password_generator.py) -/

/-- The error kinds that `PasswordGenerator.generate` can raise. -/
inductive GenError where
  | invalidLength : Nat → Nat → Nat → GenError
  | invalidCharset : GenError
  | valueError : String → GenError
deriving DecidableEq, Repr

/-- The loop `for char_set in required_charsets:
password_chars.append(secure_random_choice(char_set))`, consuming raw
draws `rand k, rand (k+1), ...`. -/
def pickRequired (rand : Nat → Nat) : List (List Char) → Nat → Except String (List Char)
  | [], _ => .ok []
  | cs :: rest, k =>
    match secure_random_choice cs (rand k) with
    | .error e => .error e
    | .ok c =>
      match pickRequired rand rest (k + 1) with
      | .error e => .error e
      | .ok others => .ok (c :: others)

/-- The loop `for _ in range(remaining):
password_chars.append(secure_random_choice(charset))`. -/
def pickFill (rand : Nat → Nat) (charset : List Char) : Nat → Nat → Except String (List Char)
  | 0, _ => .ok []
  | n + 1, k =>
    match secure_random_choice charset (rand k) with
    | .error e => .error e
    | .ok c =>
      match pickFill rand charset n (k + 1) with
      | .error e => .error e
      | .ok rest => .ok (c :: rest)

/-- `PasswordGenerator.generate`. The draw stream `rand` feeds the
required picks (positions `0..`), then the fill picks, and the shuffle
consumes the draws from position `length` on (exactly `length` draws are
consumed before the shuffle on every successful run). -/
def generate (length : Nat) (options : CharsetOptions) (rand : Nat → Nat) :
    Except GenError (List Char) :=
  if length < MIN_PASSWORD_LENGTH ∨ MAX_PASSWORD_LENGTH < length then
    .error (.invalidLength length MIN_PASSWORD_LENGTH MAX_PASSWORD_LENGTH)
  else if validate_options options = false then
    .error .invalidCharset
  else
    match build_charset options with
    | .error e => .error (.valueError e)
    | .ok charset =>
      let required_charsets := get_required_chars options
      if length < required_charsets.length then
        .error (.invalidLength length required_charsets.length MAX_PASSWORD_LENGTH)
      else
        match pickRequired rand required_charsets 0 with
        | .error e => .error (.valueError e)
        | .ok base =>
          match pickFill rand charset (length - base.length) base.length with
          | .error e => .error (.valueError e)
          | .ok fill =>
            .ok (secure_shuffle (base ++ fill) (fun k => rand (length + k)))

/-! ## Entropy calculator (src/src/generator/entropy_calculator.py) -/

/-- Python `int(x)`: truncation toward zero. -/
noncomputable def pyInt (x : ℝ) : ℤ :=
  if x < 0 then -Int.floor (-x) else Int.floor x

/-- `EntropyCalculator.calculate_entropy`: `length * log2(charset_size)`,
`0.0` when either argument is non-positive. -/
noncomputable def calculate_entropy (length charset_size : ℤ) : ℝ :=
  if charset_size ≤ 0 ∨ length ≤ 0 then 0
  else (length : ℝ) * Real.logb 2 (charset_size : ℝ)

/-! ## Pattern detector (src/src/analyzer/pattern_detector.py) -/

/-- `COMMON_PATTERNS` from src/src/core/constants.py. -/
def COMMON_PATTERNS : List (List Char) :=
  ["password".toList, "pass".toList, "123456".toList, "12345678".toList,
   "qwerty".toList, "abc123".toList, "monkey".toList, "letmein".toList,
   "trustno1".toList, "dragon".toList, "baseball".toList, "iloveyou".toList,
   "master".toList, "sunshine".toList, "ashley".toList, "bailey".toList,
   "shadow".toList, "superman".toList, "qazwsx".toList, "michael".toList,
   "football".toList, "welcome".toList, "jesus".toList, "ninja".toList,
   "mustang".toList, "admin".toList, "login".toList, "passw0rd".toList,
   "p@ssword".toList, "test".toList, "user".toList]

/-- `SEQUENTIAL_PATTERNS` from src/src/core/constants.py. -/
def SEQUENTIAL_PATTERNS : List (List Char) :=
  ["abc".toList, "bcd".toList, "cde".toList, "def".toList, "efg".toList,
   "fgh".toList, "ghi".toList, "hij".toList, "ijk".toList, "jkl".toList,
   "klm".toList, "lmn".toList, "mno".toList, "nop".toList, "opq".toList,
   "pqr".toList, "qrs".toList, "rst".toList, "stu".toList, "tuv".toList,
   "uvw".toList, "vwx".toList, "wxy".toList, "xyz".toList,
   "123".toList, "234".toList, "345".toList, "456".toList, "567".toList,
   "678".toList, "789".toList,
   "qwe".toList, "wer".toList, "ert".toList, "rty".toList, "tyu".toList,
   "yui".toList, "uio".toList, "iop".toList,
   "asd".toList, "sdf".toList, "dfg".toList, "fgh".toList, "ghj".toList,
   "hjk".toList, "jkl".toList,
   "zxc".toList, "xcv".toList, "cvb".toList, "vbn".toList, "bnm".toList]

/-- `KEYBOARD_PATTERNS` from src/src/core/constants.py. -/
def KEYBOARD_PATTERNS : List (List Char) :=
  ["qwerty".toList, "asdfgh".toList, "zxcvbn".toList, "1qaz2wsx".toList,
   "qazwsx".toList, "qwertyuiop".toList, "asdfghjkl".toList, "zxcvbnm".toList]

/-- `password.lower()` (ASCII case folding, as in all passwords the
detector tables target). -/
def toLowerList (password : List Char) : List Char := password.map Char.toLower

/-- Python's `pattern in text` substring test. -/
def substring_in (pattern text : List Char) : Bool :=
  text.tails.any fun t => pattern.isPrefixOf t

/-- `PatternDetector.has_common_patterns`. -/
def has_common_patterns (password : List Char) : Bool :=
  let password_lower := toLowerList password
  COMMON_PATTERNS.any fun pattern => substring_in pattern password_lower

/-- `PatternDetector.has_sequential_patterns`: each table entry matched
forward and reversed. -/
def has_sequential_patterns (password : List Char) : Bool :=
  let password_lower := toLowerList password
  SEQUENTIAL_PATTERNS.any fun pattern =>
    substring_in pattern password_lower || substring_in pattern.reverse password_lower

/-- `PatternDetector.has_keyboard_patterns`. -/
def has_keyboard_patterns (password : List Char) : Bool :=
  let password_lower := toLowerList password
  KEYBOARD_PATTERNS.any fun pattern => substring_in pattern password_lower

/-- `PatternDetector.has_repeated_characters` (default `min_repeat = 3`):
the regex `(.)\1{2,}` — three consecutive equal characters, where `.`
does not match a newline. -/
def has_repeated_characters (password : List Char) : Bool :=
  password.tails.any fun t =>
    match t with
    | a :: b :: c :: _ => (a != '\n') && (a == b) && (b == c)
    | _ => false

/-- ASCII decimal digit, the `\d` of the detector regexes. -/
def isDigitChar (c : Char) : Bool := '0' ≤ c && c ≤ '9'

/-- A separator character: slash or hyphen. -/
def isDateSep (c : Char) : Bool := c == '/' || c == '-'

/-- The first `n` characters of `l` exist and are all digits. -/
def digits_then (l : List Char) (n : Nat) : Bool :=
  ((l.take n).length == n) && (l.take n).all isDigitChar

/-- A match of `DATE_PATTERN` (2-4 digits, separator, 1-2 digits, separator,
1-2 digits, separators being slash or hyphen) starting at
the head of `l`; the quantifier ranges are enumerated explicitly, which
is exactly the set of strings the backtracking regex engine accepts. -/
def date_at (l : List Char) : Bool :=
  ([2, 3, 4] : List Nat).any fun a =>
    ([1, 2] : List Nat).any fun b =>
      ([1, 2] : List Nat).any fun c =>
        digits_then l a
        && (match l.drop a with | s :: _ => isDateSep s | [] => false)
        && digits_then (l.drop (a + 1)) b
        && (match l.drop (a + 1 + b) with | s :: _ => isDateSep s | [] => false)
        && digits_then (l.drop (a + 1 + b + 1)) c

/-- `PatternDetector.has_date_pattern`: `re.search(DATE_PATTERN, password)`
succeeds iff a match starts at some position. -/
def has_date_pattern (password : List Char) : Bool :=
  password.tails.any date_at

/-- `PatternDetector.has_number_suffix`: `re.search(r'\d+$', password)`.
Python's `$` also matches just before a single trailing newline. -/
def has_number_suffix (password : List Char) : Bool :=
  match password.reverse with
  | [] => false
  | c :: rest =>
    if c == '\n' then
      match rest with
      | d :: _ => isDigitChar d
      | [] => false
    else isDigitChar c

/-- `PatternDetector.get_detected_patterns`: human-readable names of the
true flags, in the fixed dict order. -/
def get_detected_patterns (password : List Char) : List String :=
  (if has_common_patterns password then ["Common weak patterns"] else [])
    ++ (if has_sequential_patterns password then ["Sequential characters"] else [])
    ++ (if has_keyboard_patterns password then ["Keyboard patterns"] else [])
    ++ (if has_repeated_characters password then ["Repeated characters"] else [])
    ++ (if has_date_pattern password then ["Date patterns"] else [])
    ++ (if has_number_suffix password then ["Numbers-only suffix"] else [])

/-! ## Analysis value object (src/src/analyzer/password_analyzer.py)

The analysis dict is embedded as a record. `AnalysisCore` holds the
fields computed before the scorer runs (exactly what
`StrengthScorer.calculate_score` and `_generate_recommendations`
receive); `Analysis` adds the derived fields. -/

structure AnalysisCore where
  length : Nat
  has_uppercase : Bool
  has_lowercase : Bool
  has_numbers : Bool
  has_symbols : Bool
  has_common_patterns : Bool
  has_sequential : Bool
  has_keyboard_patterns : Bool
  has_repeated_chars : Bool
  has_date_pattern : Bool
  has_number_only_suffix : Bool
  diversity_score : ℝ
  entropy : ℝ

structure Analysis extends AnalysisCore where
  score : ℤ
  strength : String
  crack_time : String
  security_level : String
  recommendations : List String
  detected_patterns : List String

/-! ## Strength scorer (src/src/analyzer/strength_scorer.py)

The Python methods take the analysis dict; they read only the
`AnalysisCore` fields. `password` is accepted and ignored by the source
`calculate_score`, so it is dropped here. -/

/-- `StrengthScorer._score_length`. -/
def score_length (length : Nat) : ℤ :=
  if length ≥ 20 then 30
  else if length ≥ 16 then 28
  else if length ≥ 12 then 24
  else if length ≥ 10 then 20
  else if length ≥ 8 then 15
  else (length : ℤ) * 2

/-- `StrengthScorer._score_diversity`: `int(diversity_score * 25)`. -/
noncomputable def score_diversity (a : AnalysisCore) : ℤ :=
  pyInt (a.diversity_score * 25)

/-- `StrengthScorer._score_entropy`. -/
noncomputable def score_entropy (entropy : ℝ) : ℤ :=
  if entropy ≥ 100 then 30
  else if entropy ≥ 80 then 28
  else if entropy ≥ 60 then 24
  else if entropy ≥ 40 then 18
  else pyInt (entropy / 2)

/-- `StrengthScorer._score_patterns`: bonuses for absent common and
sequential patterns, penalties for present ones. -/
def score_patterns (a : AnalysisCore) : ℤ :=
  (if ¬a.has_common_patterns then 10 else 0)
    + (if ¬a.has_sequential then 5 else 0)
    + (if a.has_common_patterns then -25 else 0)
    + (if a.has_sequential then -15 else 0)
    + (if a.has_keyboard_patterns then -10 else 0)
    + (if a.has_repeated_chars then -10 else 0)
    + (if a.has_date_pattern then -5 else 0)

/-- `StrengthScorer.calculate_score`: the clamped sum of the four
contributions. -/
noncomputable def calculate_score (a : AnalysisCore) : ℤ :=
  max 0 (min 100
    (score_length a.length + score_diversity a + score_entropy a.entropy
      + score_patterns a))

/-- `StrengthScorer.get_strength_level`. -/
def get_strength_level (score : ℤ) : String :=
  if score ≥ SCORE_STRONG_THRESHOLD then "Very Strong"
  else if score ≥ SCORE_MEDIUM_THRESHOLD then "Strong"
  else if score ≥ SCORE_WEAK_THRESHOLD then "Medium"
  else "Weak"

/-! ## Crack time estimator (src/src/analyzer/crack_time_estimator.py) -/

/-- `CrackTimeEstimator._format_time`. Each numeric band truncates with
`int(...)`; only the minute, hour, day, month and year bands pluralize
— the seconds band always appends a plural unit. -/
noncomputable def format_time (seconds : ℝ) : String :=
  if seconds < 0.001 then "Instant"
  else if seconds < 1 then "Less than 1 second"
  else if seconds < 60 then toString (pyInt seconds) ++ " seconds"
  else if seconds < 3600 then
    let minutes := pyInt (seconds / 60)
    toString minutes ++ " minute" ++ (if minutes ≠ 1 then "s" else "")
  else if seconds < 86400 then
    let hours := pyInt (seconds / 3600)
    toString hours ++ " hour" ++ (if hours ≠ 1 then "s" else "")
  else if seconds < 2592000 then
    let days := pyInt (seconds / 86400)
    toString days ++ " day" ++ (if days ≠ 1 then "s" else "")
  else if seconds < 31536000 then
    let months := pyInt (seconds / 2592000)
    toString months ++ " month" ++ (if months ≠ 1 then "s" else "")
  else if seconds < 3153600000 then
    let years := pyInt (seconds / 31536000)
    toString years ++ " year" ++ (if years ≠ 1 then "s" else "")
  else if seconds < 31536000000 then "Centuries"
  else "Millennia+"

/-- `CrackTimeEstimator.estimate_from_entropy` at the default rate:
`seconds = 2 ** entropy / (2 * attempts_per_second)`. -/
noncomputable def estimate_from_entropy (entropy : ℝ) : String :=
  if entropy ≤ 0 then "Instant"
  else format_time ((2 : ℝ) ^ entropy / (2 * (BRUTE_FORCE_RATE : ℝ)))

/-- `CrackTimeEstimator.get_security_level`: classifies by substring
match on the formatted time estimate. -/
noncomputable def get_security_level (entropy : ℝ) : String :=
  let time_estimate := (estimate_from_entropy entropy).toList
  if substring_in "Instant".toList time_estimate
      || substring_in "second".toList time_estimate then
    "Very Weak - Crackable instantly"
  else if substring_in "minute".toList time_estimate
      || substring_in "hour".toList time_estimate then
    "Weak - Crackable in hours"
  else if substring_in "day".toList time_estimate then
    "Moderate - Crackable in days"
  else if substring_in "month".toList time_estimate then
    "Good - Crackable in months"
  else if substring_in "year".toList time_estimate
      && !(substring_in "Centur".toList time_estimate) then
    "Strong - Crackable in years"
  else
    "Very Strong - Crackable in centuries+"

/-! ## Password analyzer (src/src/analyzer/password_analyzer.py) -/

/-- `re.search(r'[A-Z]', password)` on one character. -/
def isUpperChar (c : Char) : Bool := 'A' ≤ c && c ≤ 'Z'

/-- `re.search(r'[a-z]', password)` on one character. -/
def isLowerChar (c : Char) : Bool := 'a' ≤ c && c ≤ 'z'

/-- The symbol class of the analyzer: `[^A-Za-z0-9]`, the complement of
the other three classes. -/
def isSymbolChar (c : Char) : Bool :=
  !(isUpperChar c || isLowerChar c || isDigitChar c)

def has_uppercase_in (password : List Char) : Bool := password.any isUpperChar
def has_lowercase_in (password : List Char) : Bool := password.any isLowerChar
def has_numbers_in (password : List Char) : Bool := password.any isDigitChar
def has_symbols_in (password : List Char) : Bool := password.any isSymbolChar

/-- `PasswordAnalyzer._calculate_diversity`: classes present divided by 4. -/
noncomputable def calculate_diversity (u l n s : Bool) : ℝ :=
  ((u.toNat + l.toNat + n.toNat + s.toNat : ℕ) : ℝ) / 4

/-- The alphabet size summed from the character classes present, as in
`PasswordAnalyzer._calculate_entropy`. -/
def analyzer_charset_size (u l n s : Bool) : ℕ :=
  (if u then 26 else 0) + (if l then 26 else 0)
    + (if n then 10 else 0) + (if s then 32 else 0)

/-- `PasswordAnalyzer._calculate_entropy`. -/
noncomputable def analyzer_entropy (length : ℕ) (u l n s : Bool) : ℝ :=
  let charset_size := analyzer_charset_size u l n s
  if charset_size = 0 then 0
  else (length : ℝ) * Real.logb 2 (charset_size : ℝ)

/-- The list built up in the local `recommendations` variable of
`PasswordAnalyzer._generate_recommendations`, before the fallback. Only
four of the six pattern flags contribute a recommendation; the
date-pattern and number-suffix flags are never consulted. -/
noncomputable def recommendations_list (a : AnalysisCore) : List String :=
  (if a.length < 8 then ["Increase length to at least 8 characters"]
   else if a.length < 12 then ["Consider increasing length to 12+ characters"]
   else [])
  ++ (if ¬a.has_uppercase then ["Add uppercase letters (A-Z)"] else [])
  ++ (if ¬a.has_lowercase then ["Add lowercase letters (a-z)"] else [])
  ++ (if ¬a.has_numbers then ["Add numbers (0-9)"] else [])
  ++ (if ¬a.has_symbols then ["Add symbols (!@#$...)"] else [])
  ++ (if a.has_common_patterns then ["Avoid common words and patterns"] else [])
  ++ (if a.has_sequential then ["Avoid sequential characters (abc, 123)"] else [])
  ++ (if a.has_keyboard_patterns then ["Avoid keyboard patterns (qwerty)"] else [])
  ++ (if a.has_repeated_chars then ["Avoid repeated characters (aaa, 111)"] else [])
  ++ (if a.entropy < 40 then ["Significantly increase password complexity"] else [])

/-- `PasswordAnalyzer._generate_recommendations`: the built list, or the
positive affirmation when nothing was produced. -/
noncomputable def generate_recommendations (a : AnalysisCore) : List String :=
  if recommendations_list a = [] then ["Password meets security best practices!"]
  else recommendations_list a

/-- The eleven conditional recommendation messages of
`_generate_recommendations` (every element of `recommendations_list`
is one of these; none mentions date patterns or numeric suffixes). -/
def REC_MESSAGES : List String :=
  ["Increase length to at least 8 characters",
   "Consider increasing length to 12+ characters",
   "Add uppercase letters (A-Z)",
   "Add lowercase letters (a-z)",
   "Add numbers (0-9)",
   "Add symbols (!@#$...)",
   "Avoid common words and patterns",
   "Avoid sequential characters (abc, 123)",
   "Avoid keyboard patterns (qwerty)",
   "Avoid repeated characters (aaa, 111)",
   "Significantly increase password complexity"]

/-- `PasswordAnalyzer._empty_analysis`. The source dict omits the six
pattern flags; the absent keys read back as false via `dict.get`. -/
def empty_analysis : Analysis :=
  { length := 0
    has_uppercase := false, has_lowercase := false
    has_numbers := false, has_symbols := false
    has_common_patterns := false, has_sequential := false
    has_keyboard_patterns := false, has_repeated_chars := false
    has_date_pattern := false, has_number_only_suffix := false
    diversity_score := 0, entropy := 0
    score := 0, strength := "Weak"
    crack_time := "Instant", security_level := "Very Weak"
    recommendations := ["Enter a password to analyze"]
    detected_patterns := [] }

/-- The `AnalysisCore` part assembled by `PasswordAnalyzer.analyze` for a
non-empty password. -/
noncomputable def analyze_core (password : List Char) : AnalysisCore :=
  { length := password.length
    has_uppercase := has_uppercase_in password
    has_lowercase := has_lowercase_in password
    has_numbers := has_numbers_in password
    has_symbols := has_symbols_in password
    has_common_patterns := has_common_patterns password
    has_sequential := has_sequential_patterns password
    has_keyboard_patterns := has_keyboard_patterns password
    has_repeated_chars := has_repeated_characters password
    has_date_pattern := has_date_pattern password
    has_number_only_suffix := has_number_suffix password
    diversity_score := calculate_diversity (has_uppercase_in password)
      (has_lowercase_in password) (has_numbers_in password) (has_symbols_in password)
    entropy := analyzer_entropy password.length (has_uppercase_in password)
      (has_lowercase_in password) (has_numbers_in password) (has_symbols_in password) }

/-- `PasswordAnalyzer.analyze`. -/
noncomputable def analyze (password : List Char) : Analysis :=
  if password = [] then empty_analysis
  else
    let core := analyze_core password
    { toAnalysisCore := core
      score := calculate_score core
      strength := get_strength_level (calculate_score core)
      crack_time := estimate_from_entropy core.entropy
      security_level := get_security_level core.entropy
      recommendations := generate_recommendations core
      detected_patterns := get_detected_patterns password }

/-! ## Policy validator (src/src/validator/policy_rules.py and
src/src/validator/policy_validator.py) -/

structure PasswordPolicy where
  min_length : ℕ := 8
  max_length : ℕ := 128
  require_uppercase : Bool := true
  require_lowercase : Bool := true
  require_numbers : Bool := true
  require_symbols : Bool := false
  min_entropy : Option ℝ := none
  forbid_common_patterns : Bool := true
  forbid_sequential : Bool := true

structure ValidationResult where
  valid : Bool
  errors : List String
  warnings : List String
  score : ℤ
  strength : String

/-- The entropy violation message; the source interpolates the measured
and required bit counts, which the claims never inspect, so the numeric
formatting is not reproduced. -/
def entropy_error_message : String := "Password entropy too low"

/-- The `errors` list accumulated by `PolicyValidator.validate`, in
source order. Python's truthiness test `if self.policy.min_entropy`
skips the entropy check when the bound is `None` or `0.0`. -/
noncomputable def validate_errors (policy : PasswordPolicy) (password : List Char) :
    List String :=
  (if password.length < policy.min_length then
    ["Password must be at least " ++ toString policy.min_length ++ " characters"]
   else [])
  ++ (if password.length > policy.max_length then
    ["Password must not exceed " ++ toString policy.max_length ++ " characters"]
   else [])
  ++ (if policy.require_uppercase && !(password.any Char.isUpper) then
    ["Password must contain at least one uppercase letter"] else [])
  ++ (if policy.require_lowercase && !(password.any Char.isLower) then
    ["Password must contain at least one lowercase letter"] else [])
  ++ (if policy.require_numbers && !(password.any Char.isDigit) then
    ["Password must contain at least one number"] else [])
  ++ (if policy.require_symbols && !(password.any fun c => !c.isAlphanum) then
    ["Password must contain at least one symbol"] else [])
  ++ (if policy.forbid_common_patterns && (analyze password).has_common_patterns then
    ["Password contains common weak patterns"] else [])
  ++ (if policy.forbid_sequential && (analyze password).has_sequential then
    ["Password contains sequential characters"] else [])
  ++ (match policy.min_entropy with
      | none => []
      | some me =>
        if me ≠ 0 ∧ (analyze password).entropy < me then [entropy_error_message]
        else [])

/-- The `warnings` list of `PolicyValidator.validate`: computed only for
weak-but-valid passwords, i.e. when no error was recorded. -/
noncomputable def validate_warnings (policy : PasswordPolicy) (password : List Char) :
    List String :=
  if validate_errors policy password = [] then
    (if (analyze password).score < 60 then
      ["Password is weak. Consider making it stronger."] else [])
    ++ (if !policy.require_symbols && !(analyze password).has_symbols then
      ["Adding symbols would significantly improve strength"] else [])
  else []

/-- `PolicyValidator.validate`: `valid` is the emptiness of `errors`;
the score and strength are carried through from the analyzer. -/
noncomputable def validate (policy : PasswordPolicy) (password : List Char) :
    ValidationResult :=
  { valid := (validate_errors policy password).isEmpty
    errors := validate_errors policy password
    warnings := validate_warnings policy password
    score := (analyze password).score
    strength := (analyze password).strength }

/-! ## Permutation facts about the Fisher-Yates shuffle -/

/-- Setting position `k` (which holds `b`) to `a` and consing `b` in
front permutes consing `a` in front. -/
theorem cons_set_perm {α : Type} (a : α) (xs : List α) :
    ∀ (k : Nat) (b : α), xs[k]? = some b →
      List.Perm (b :: xs.set k a) (a :: xs) := by
  induction xs with
  | nil => intro k b h; simp at h
  | cons c t ih =>
    intro k b h
    cases k with
    | zero =>
      simp only [List.getElem?_cons_zero, Option.some.injEq] at h
      subst h
      exact List.Perm.swap a c t
    | succ m =>
      simp only [List.getElem?_cons_succ] at h
      have h1 : List.Perm (b :: c :: t.set m a) (c :: b :: t.set m a) :=
        List.Perm.swap c b _
      have h2 : List.Perm (c :: b :: t.set m a) (c :: a :: t) :=
        List.Perm.cons c (ih m b h)
      exact (h1.trans h2).trans (List.Perm.swap a c t)

/-- A double `set` that exchanges the values at two valid positions is a
permutation. -/
theorem set_set_perm {α : Type} (l : List α) :
    ∀ (i j : Nat) (a b : α), l[i]? = some a → l[j]? = some b →
      List.Perm ((l.set i b).set j a) l := by
  induction l with
  | nil => intro i j a b h _; simp at h
  | cons c t ih =>
    intro i j a b hi hj
    cases i with
    | zero =>
      simp only [List.getElem?_cons_zero, Option.some.injEq] at hi
      subst hi
      cases j with
      | zero =>
        simp only [List.getElem?_cons_zero, Option.some.injEq] at hj
        subst hj
        exact List.Perm.refl _
      | succ m =>
        simp only [List.getElem?_cons_succ] at hj
        exact cons_set_perm c t m b hj
    | succ k =>
      simp only [List.getElem?_cons_succ] at hi
      cases j with
      | zero =>
        simp only [List.getElem?_cons_zero, Option.some.injEq] at hj
        subst hj
        exact cons_set_perm c t k a hi
      | succ m =>
        simp only [List.getElem?_cons_succ] at hj
        exact List.Perm.cons c (ih k m a b hi hj)

/-- Every single swap step permutes the list. -/
theorem listSwap_perm {α : Type} (l : List α) (i j : Nat) :
    List.Perm (listSwap l i j) l := by
  unfold listSwap
  split
  · next a b hi hj => exact set_set_perm l i j a b hi hj
  · exact List.Perm.refl l

/-- The whole Fisher-Yates loop permutes the list. -/
theorem fisher_yates_loop_perm {α : Type} (rand : Nat → Nat) :
    ∀ (i k : Nat) (l : List α), List.Perm (fisher_yates_loop rand i k l) l := by
  intro i
  induction i with
  | zero => intro k l; exact List.Perm.refl l
  | succ n ih =>
    intro k l
    exact (ih (k + 1) (listSwap l (n + 1) (rand k % (n + 2)))).trans
      (listSwap_perm l (n + 1) (rand k % (n + 2)))

/-- C9: for every input list and every sequence of random draws,
`secure_shuffle` returns a permutation (hence a multiset-equal list of
the same length) of its input; the input value itself is untouched — the
source copies the list before shuffling, and the embedding is pure, so
the argument `items` is never mutated. -/
theorem secure_shuffle_permutation {α : Type} (items : List α) (rand : Nat → Nat) :
    List.Perm (secure_shuffle items rand) items ∧
      (secure_shuffle items rand).length = items.length := by
  have h := fisher_yates_loop_perm rand (items.length - 1) 0 items
  exact ⟨h, h.length_eq⟩

/-! ## Generator lemmas -/

/-- The required-draw loop succeeds on nonempty sub-alphabets and picks
one member from each, in order. -/
theorem pickRequired_spec (rand : Nat → Nat) :
    ∀ (sets : List (List Char)) (k : Nat), (∀ cs ∈ sets, cs ≠ []) →
      ∃ l, pickRequired rand sets k = .ok l ∧
        List.Forall₂ (fun c cs => c ∈ cs) l sets := by
  intro sets
  induction sets with
  | nil => intro k _; exact ⟨[], rfl, List.Forall₂.nil⟩
  | cons cs rest ih =>
    intro k hne
    have hcs : cs ≠ [] := hne cs (List.mem_cons_self cs rest)
    obtain ⟨l, hl, hf⟩ := ih (k + 1) (fun c hc => hne c (List.mem_cons_of_mem cs hc))
    refine ⟨cs.get ⟨rand k % cs.length, Nat.mod_lt _ (List.length_pos.mpr hcs)⟩ :: l,
      ?_, List.Forall₂.cons (List.get_mem cs _ _) hf⟩
    simp only [pickRequired, secure_random_choice, dif_neg hcs, hl]

/-- The fill loop succeeds on a nonempty charset and returns exactly the
requested number of characters. -/
theorem pickFill_spec (rand : Nat → Nat) (charset : List Char) (hcs : charset ≠ []) :
    ∀ (n k : Nat), ∃ l, pickFill rand charset n k = .ok l ∧ l.length = n := by
  intro n
  induction n with
  | zero => intro k; exact ⟨[], rfl, rfl⟩
  | succ m ih =>
    intro k
    obtain ⟨l, hl, hlen⟩ := ih (k + 1)
    refine ⟨charset.get ⟨rand k % charset.length,
        Nat.mod_lt _ (List.length_pos.mpr hcs)⟩ :: l, ?_, by simp [hlen]⟩
    simp only [pickFill, secure_random_choice, dif_neg hcs, hl]

/-- All required sub-alphabets are the fixed nonempty category tables. -/
theorem required_nonempty (o : CharsetOptions) :
    ∀ cs ∈ get_required_chars o, cs ≠ [] := by
  rcases o with ⟨u, l, n, s⟩
  cases u <;> cases l <;> cases n <;> cases s <;> decide

/-- With at least one category enabled the combined charset is nonempty. -/
theorem charset_nonempty (o : CharsetOptions) (h : validate_options o = true) :
    build_charset_chars o ≠ [] := by
  rcases o with ⟨u, l, n, s⟩
  revert h
  cases u <;> cases l <;> cases n <;> cases s <;> decide

/-- With at least one category enabled `build_charset` does not raise. -/
theorem build_charset_ok (o : CharsetOptions) (h : validate_options o = true) :
    build_charset o = .ok (build_charset_chars o) := by
  unfold build_charset
  rw [if_neg (charset_nonempty o h)]

/-- Each enabled category's alphabet appears among the required
sub-alphabets. -/
theorem mem_required_of_flag (o : CharsetOptions) :
    (o.uppercase = true → UPPERCASE ∈ get_required_chars o) ∧
    (o.lowercase = true → LOWERCASE ∈ get_required_chars o) ∧
    (o.numbers = true → DIGITS ∈ get_required_chars o) ∧
    (o.symbols = true → SYMBOLS ∈ get_required_chars o) := by
  rcases o with ⟨u, l, n, s⟩
  cases u <;> cases l <;> cases n <;> cases s <;> decide

/-- From a `Forall₂` relation, every right element has a related left
element. -/
theorem forall2_exists_mem {α β : Type} {R : α → β → Prop} :
    ∀ {l1 : List α} {l2 : List β}, List.Forall₂ R l1 l2 →
      ∀ b ∈ l2, ∃ a ∈ l1, R a b := by
  intro l1 l2 h
  induction h with
  | nil => intro b hb; cases hb
  | @cons a' b' _ _ hr _ ih =>
    intro b hb
    rcases List.mem_cons.mp hb with rfl | hb2
    · exact ⟨a', List.mem_cons_self _ _, hr⟩
    · obtain ⟨a, ha, har⟩ := ih b hb2
      exact ⟨a, List.mem_cons_of_mem _ ha, har⟩

/-- On valid input, `generate` succeeds and returns the shuffle of one
pick per required sub-alphabet followed by the fill picks. -/
theorem generate_ok (length : Nat) (o : CharsetOptions) (rand : Nat → Nat)
    (h1 : MIN_PASSWORD_LENGTH ≤ length) (h2 : length ≤ MAX_PASSWORD_LENGTH)
    (h3 : validate_options o = true)
    (h4 : (get_required_chars o).length ≤ length) :
    ∃ base fill,
      List.Forall₂ (fun c cs => c ∈ cs) base (get_required_chars o) ∧
      base.length = (get_required_chars o).length ∧
      fill.length = length - base.length ∧
      generate length o rand =
        .ok (secure_shuffle (base ++ fill) (fun k => rand (length + k))) := by
  obtain ⟨base, hbase, hf⟩ :=
    pickRequired_spec rand (get_required_chars o) 0 (required_nonempty o)
  obtain ⟨fill, hfill, hflen⟩ :=
    pickFill_spec rand (build_charset_chars o) (charset_nonempty o h3)
      (length - base.length) base.length
  have hc1 : ¬(length < MIN_PASSWORD_LENGTH ∨ MAX_PASSWORD_LENGTH < length) := by
    omega
  have hc2 : ¬(validate_options o = false) := by simp [h3]
  have hc4 : ¬(length < (get_required_chars o).length) := by omega
  refine ⟨base, fill, hf, hf.length_eq, hflen, ?_⟩
  unfold generate
  rw [if_neg hc1, if_neg hc2, build_charset_ok o h3]
  dsimp only
  rw [if_neg hc4, hbase]
  dsimp only
  rw [hfill]

/-- C1: for every valid length in the configured bounds and every options
record with at least one enabled category whose required-category count
does not exceed the length, and for every sequence of random draws,
`generate` returns a password in which each enabled category is
represented by at least one character. -/
theorem generate_diversity (length : Nat) (o : CharsetOptions) (rand : Nat → Nat)
    (h1 : MIN_PASSWORD_LENGTH ≤ length) (h2 : length ≤ MAX_PASSWORD_LENGTH)
    (h3 : validate_options o = true)
    (h4 : (get_required_chars o).length ≤ length) :
    ∃ p, generate length o rand = .ok p ∧
      (o.uppercase = true → ∃ c ∈ p, c ∈ UPPERCASE) ∧
      (o.lowercase = true → ∃ c ∈ p, c ∈ LOWERCASE) ∧
      (o.numbers = true → ∃ c ∈ p, c ∈ DIGITS) ∧
      (o.symbols = true → ∃ c ∈ p, c ∈ SYMBOLS) := by
  obtain ⟨base, fill, hf, hblen, hflen, heq⟩ := generate_ok length o rand h1 h2 h3 h4
  have hperm : List.Perm (secure_shuffle (base ++ fill) (fun k => rand (length + k)))
      (base ++ fill) :=
    fisher_yates_loop_perm _ _ _ _
  have hmem : ∀ (alpha : List Char), alpha ∈ get_required_chars o →
      ∃ c ∈ secure_shuffle (base ++ fill) (fun k => rand (length + k)), c ∈ alpha := by
    intro alpha halpha
    obtain ⟨c, hc, hca⟩ := forall2_exists_mem hf alpha halpha
    exact ⟨c, hperm.mem_iff.mpr (List.mem_append_left fill hc), hca⟩
  obtain ⟨hu, hl, hn, hs⟩ := mem_required_of_flag o
  exact ⟨_, heq,
    fun h => hmem UPPERCASE (hu h),
    fun h => hmem LOWERCASE (hl h),
    fun h => hmem DIGITS (hn h),
    fun h => hmem SYMBOLS (hs h)⟩

/-- C1 witness: the theorem applied at length 4 with all four categories
enabled and the all-zero draw stream. -/
theorem generate_diversity_witness :
    MIN_PASSWORD_LENGTH ≤ 4 ∧ 4 ≤ MAX_PASSWORD_LENGTH ∧
      validate_options ⟨true, true, true, true⟩ = true ∧
      (get_required_chars ⟨true, true, true, true⟩).length ≤ 4 ∧
      (∃ p, generate 4 ⟨true, true, true, true⟩ (fun _ => 0) = .ok p ∧
        ((⟨true, true, true, true⟩ : CharsetOptions).uppercase = true →
          ∃ c ∈ p, c ∈ UPPERCASE) ∧
        ((⟨true, true, true, true⟩ : CharsetOptions).lowercase = true →
          ∃ c ∈ p, c ∈ LOWERCASE) ∧
        ((⟨true, true, true, true⟩ : CharsetOptions).numbers = true →
          ∃ c ∈ p, c ∈ DIGITS) ∧
        ((⟨true, true, true, true⟩ : CharsetOptions).symbols = true →
          ∃ c ∈ p, c ∈ SYMBOLS)) :=
  ⟨by decide, by decide, by decide, by decide,
    generate_diversity 4 ⟨true, true, true, true⟩ (fun _ => 0)
      (by decide) (by decide) (by decide) (by decide)⟩

/-- C2: for every valid length and options and every sequence of random
draws, the password returned by `generate` has exactly `length`
characters. -/
theorem generate_length_exact (length : Nat) (o : CharsetOptions) (rand : Nat → Nat)
    (h1 : MIN_PASSWORD_LENGTH ≤ length) (h2 : length ≤ MAX_PASSWORD_LENGTH)
    (h3 : validate_options o = true)
    (h4 : (get_required_chars o).length ≤ length) :
    ∃ p, generate length o rand = .ok p ∧ p.length = length := by
  obtain ⟨base, fill, hf, hblen, hflen, heq⟩ := generate_ok length o rand h1 h2 h3 h4
  refine ⟨_, heq, ?_⟩
  have hperm : List.Perm (secure_shuffle (base ++ fill) (fun k => rand (length + k)))
      (base ++ fill) :=
    fisher_yates_loop_perm _ _ _ _
  rw [hperm.length_eq, List.length_append]
  omega

/-- C2 witness: the theorem applied at length 4 with all four categories
enabled and the all-zero draw stream. -/
theorem generate_length_exact_witness :
    MIN_PASSWORD_LENGTH ≤ 4 ∧ 4 ≤ MAX_PASSWORD_LENGTH ∧
      validate_options ⟨true, true, true, true⟩ = true ∧
      (get_required_chars ⟨true, true, true, true⟩).length ≤ 4 ∧
      (∃ p, generate 4 ⟨true, true, true, true⟩ (fun _ => 0) = .ok p ∧
        p.length = 4) :=
  ⟨by decide, by decide, by decide, by decide,
    generate_length_exact 4 ⟨true, true, true, true⟩ (fun _ => 0)
      (by decide) (by decide) (by decide) (by decide)⟩

/-- C3: `generate` fails with `InvalidLengthError` exactly when the
length is out of bounds or the required-category count exceeds the
length, and returns normally otherwise (given at least one enabled
category); in particular `generate 3` with all four categories enabled
fails with an `InvalidLengthError` (raised by the range check, since
3 is already below the configured minimum 4). -/
theorem generate_validation (length : Nat) (o : CharsetOptions) (rand : Nat → Nat) :
    ((length < MIN_PASSWORD_LENGTH ∨ MAX_PASSWORD_LENGTH < length) →
      generate length o rand =
        .error (.invalidLength length MIN_PASSWORD_LENGTH MAX_PASSWORD_LENGTH)) ∧
    (MIN_PASSWORD_LENGTH ≤ length → length ≤ MAX_PASSWORD_LENGTH →
      validate_options o = true → length < (get_required_chars o).length →
      generate length o rand =
        .error (.invalidLength length (get_required_chars o).length
          MAX_PASSWORD_LENGTH)) ∧
    (MIN_PASSWORD_LENGTH ≤ length → length ≤ MAX_PASSWORD_LENGTH →
      validate_options o = true → (get_required_chars o).length ≤ length →
      ∃ p, generate length o rand = .ok p) ∧
    generate 3 ⟨true, true, true, true⟩ rand =
      .error (.invalidLength 3 MIN_PASSWORD_LENGTH MAX_PASSWORD_LENGTH) := by
  refine ⟨?_, ?_, ?_, ?_⟩
  · intro h
    unfold generate
    rw [if_pos h]
  · intro h1 h2 h3 h4
    have hc1 : ¬(length < MIN_PASSWORD_LENGTH ∨ MAX_PASSWORD_LENGTH < length) := by
      omega
    have hc2 : ¬(validate_options o = false) := by simp [h3]
    unfold generate
    rw [if_neg hc1, if_neg hc2, build_charset_ok o h3]
    dsimp only
    rw [if_pos h4]
  · intro h1 h2 h3 h4
    obtain ⟨base, fill, _, _, _, heq⟩ := generate_ok length o rand h1 h2 h3 h4
    exact ⟨_, heq⟩
  · unfold generate
    rw [if_pos (by decide : (3 < MIN_PASSWORD_LENGTH ∨ MAX_PASSWORD_LENGTH < 3))]

/-- C3 witness: the out-of-range case at the concrete error scenario of
the specification. -/
theorem generate_validation_witness :
    generate 3 ⟨true, true, true, true⟩ (fun _ => 0) =
      .error (.invalidLength 3 MIN_PASSWORD_LENGTH MAX_PASSWORD_LENGTH) :=
  (generate_validation 3 ⟨true, true, true, true⟩ (fun _ => 0)).1 (by decide)

/-! ## Entropy monotonicity -/

/-- The entropy formula never returns a negative value. -/
theorem calculate_entropy_nonneg (l c : ℤ) : 0 ≤ calculate_entropy l c := by
  unfold calculate_entropy
  split
  · exact le_refl 0
  · next h =>
    rw [not_or, not_le, not_le] at h
    obtain ⟨hc, hl⟩ := h
    apply mul_nonneg
    · exact_mod_cast hl.le
    · exact Real.logb_nonneg one_lt_two (by exact_mod_cast (by omega : (1 : ℤ) ≤ c))

/-- Monotonicity of the entropy formula in the length argument. -/
theorem calculate_entropy_mono_length (l1 l2 c : ℤ) (h : l1 ≤ l2) :
    calculate_entropy l1 c ≤ calculate_entropy l2 c := by
  by_cases hl1 : l1 ≤ 0
  · rw [show calculate_entropy l1 c = 0 from by
      unfold calculate_entropy; rw [if_pos (Or.inr hl1)]]
    exact calculate_entropy_nonneg l2 c
  · by_cases hc : c ≤ 0
    · unfold calculate_entropy
      rw [if_pos (Or.inl hc), if_pos (Or.inl hc)]
    · rw [not_le] at hl1 hc
      unfold calculate_entropy
      rw [if_neg (by omega), if_neg (by omega)]
      apply mul_le_mul_of_nonneg_right
      · exact_mod_cast h
      · exact Real.logb_nonneg one_lt_two (by exact_mod_cast (by omega : (1 : ℤ) ≤ c))

/-- Monotonicity of the entropy formula in the charset-size argument. -/
theorem calculate_entropy_mono_charset (l c1 c2 : ℤ) (h : c1 ≤ c2) :
    calculate_entropy l c1 ≤ calculate_entropy l c2 := by
  by_cases hc1 : c1 ≤ 0
  · rw [show calculate_entropy l c1 = 0 from by
      unfold calculate_entropy; rw [if_pos (Or.inl hc1)]]
    exact calculate_entropy_nonneg l c2
  · by_cases hl : l ≤ 0
    · unfold calculate_entropy
      rw [if_pos (Or.inr hl), if_pos (Or.inr hl)]
    · rw [not_le] at hc1 hl
      unfold calculate_entropy
      rw [if_neg (by omega), if_neg (by omega)]
      apply mul_le_mul_of_nonneg_left
      · exact Real.logb_le_logb_of_le one_lt_two
          (by exact_mod_cast hc1) (by exact_mod_cast h)
      · exact_mod_cast hl.le

/-- C4: the entropy function is non-decreasing in both arguments, and is
zero at zero length or zero charset size. -/
theorem entropy_monotone (l1 l2 c1 c2 l c : ℤ) :
    (l1 ≤ l2 → calculate_entropy l1 c ≤ calculate_entropy l2 c) ∧
    (c1 ≤ c2 → calculate_entropy l c1 ≤ calculate_entropy l c2) ∧
    calculate_entropy 0 c = 0 ∧ calculate_entropy l 0 = 0 :=
  ⟨calculate_entropy_mono_length l1 l2 c,
   calculate_entropy_mono_charset l c1 c2,
   by unfold calculate_entropy; rw [if_pos (Or.inr le_rfl)],
   by unfold calculate_entropy; rw [if_pos (Or.inl le_rfl)]⟩

/-- C4 witness: monotonicity instances at concrete lengths 3 ≤ 5 and
charset sizes 10 ≤ 26. -/
theorem entropy_monotone_witness :
    ((3 : ℤ) ≤ 5 ∧ calculate_entropy 3 10 ≤ calculate_entropy 5 10) ∧
    ((10 : ℤ) ≤ 26 ∧ calculate_entropy 4 10 ≤ calculate_entropy 4 26) :=
  ⟨⟨by decide, (entropy_monotone 3 5 10 26 4 10).1 (by decide)⟩,
   ⟨by decide, (entropy_monotone 3 5 10 26 4 10).2.1 (by decide)⟩⟩

/-! ## Strength scorer specification -/

/-- The separate bonus and penalty conditionals of `_score_patterns`
collapse to one conditional per pattern. -/
theorem score_patterns_eq (a : AnalysisCore) :
    score_patterns a =
      (if a.has_common_patterns then -25 else 10)
      + (if a.has_sequential then -15 else 5)
      + (if a.has_keyboard_patterns then -10 else 0)
      + (if a.has_repeated_chars then -10 else 0)
      + (if a.has_date_pattern then -5 else 0) := by
  unfold score_patterns
  by_cases h1 : a.has_common_patterns <;> by_cases h2 : a.has_sequential <;>
    simp [h1, h2]

/-- Python truncation agrees with the floor on non-negative reals. -/
theorem pyInt_eq_floor (x : ℝ) (h : 0 ≤ x) : pyInt x = Int.floor x := by
  unfold pyInt
  rw [if_neg (not_lt.mpr h)]

/-- C5: for every analysis record (diversity and entropy are non-negative
in every analyzer report), the score is the clamp to the range 0..100 of
the sum of the length table, the floor of 25 times the diversity score,
the entropy table, and the pattern adjustment; in particular the score
always lies within 0..100. -/
theorem calculate_score_spec (a : AnalysisCore)
    (hd : 0 ≤ a.diversity_score) (he : 0 ≤ a.entropy) :
    calculate_score a =
      max 0 (min 100
        ((if a.length ≥ 20 then (30 : ℤ) else if a.length ≥ 16 then 28
          else if a.length ≥ 12 then 24 else if a.length ≥ 10 then 20
          else if a.length ≥ 8 then 15 else (a.length : ℤ) * 2)
        + Int.floor (a.diversity_score * 25)
        + (if a.entropy ≥ 100 then (30 : ℤ) else if a.entropy ≥ 80 then 28
           else if a.entropy ≥ 60 then 24 else if a.entropy ≥ 40 then 18
           else Int.floor (a.entropy / 2))
        + ((if a.has_common_patterns then (-25 : ℤ) else 10)
          + (if a.has_sequential then -15 else 5)
          + (if a.has_keyboard_patterns then -10 else 0)
          + (if a.has_repeated_chars then -10 else 0)
          + (if a.has_date_pattern then -5 else 0)))) ∧
    0 ≤ calculate_score a ∧ calculate_score a ≤ 100 := by
  refine ⟨?_, ?_, ?_⟩
  · unfold calculate_score score_length score_diversity score_entropy
    rw [pyInt_eq_floor _ (mul_nonneg hd (by norm_num)),
      pyInt_eq_floor _ (div_nonneg he (by norm_num)), score_patterns_eq]
  · exact le_max_left _ _
  · exact max_le (by norm_num) (min_le_left _ _)

/-- C5 witness: the score bounds at a concrete report. -/
theorem calculate_score_spec_witness :
    (0 : ℝ) ≤ (⟨8, true, true, false, false, false, false, false, false, false,
        false, 1 / 2, 30⟩ : AnalysisCore).diversity_score ∧
    (0 : ℝ) ≤ (⟨8, true, true, false, false, false, false, false, false, false,
        false, 1 / 2, 30⟩ : AnalysisCore).entropy ∧
    0 ≤ calculate_score ⟨8, true, true, false, false, false, false, false, false,
        false, false, 1 / 2, 30⟩ ∧
    calculate_score ⟨8, true, true, false, false, false, false, false, false,
        false, false, 1 / 2, 30⟩ ≤ 100 :=
  ⟨by norm_num, by norm_num,
   (calculate_score_spec ⟨8, true, true, false, false, false, false, false, false,
      false, false, 1 / 2, 30⟩ (by norm_num) (by norm_num)).2.1,
   (calculate_score_spec ⟨8, true, true, false, false, false, false, false, false,
      false, false, 1 / 2, 30⟩ (by norm_num) (by norm_num)).2.2⟩

/-! ## Crack time formatting -/

/-- The inline pluralization of the numeric bands rewritten as a single
conditional on the unit word. -/
theorem plural_unit (m : ℤ) (u : String) :
    toString m ++ u ++ (if m ≠ 1 then "s" else "") =
      toString m ++ (if m = 1 then u else u ++ "s") := by
  by_cases h : m = 1
  · simp [h]
  · simp [h, String.append_assoc]

/-- C6 (amended): the banding of `format_time` over non-negative
durations, with the integer count obtained by flooring; the minute,
hour, day, month and year bands use the singular unit exactly when the
count is 1, while the seconds band always appends the plural unit
`" seconds"`, even for a count of 1. -/
theorem format_time_bands (s : ℝ) (h0 : 0 ≤ s) :
    (s < 0.001 → format_time s = "Instant") ∧
    (0.001 ≤ s → s < 1 → format_time s = "Less than 1 second") ∧
    (1 ≤ s → s < 60 → format_time s = toString (Int.floor s) ++ " seconds") ∧
    (60 ≤ s → s < 3600 → format_time s =
      toString (Int.floor (s / 60)) ++
        (if Int.floor (s / 60) = 1 then " minute" else " minutes")) ∧
    (3600 ≤ s → s < 86400 → format_time s =
      toString (Int.floor (s / 3600)) ++
        (if Int.floor (s / 3600) = 1 then " hour" else " hours")) ∧
    (86400 ≤ s → s < 2592000 → format_time s =
      toString (Int.floor (s / 86400)) ++
        (if Int.floor (s / 86400) = 1 then " day" else " days")) ∧
    (2592000 ≤ s → s < 31536000 → format_time s =
      toString (Int.floor (s / 2592000)) ++
        (if Int.floor (s / 2592000) = 1 then " month" else " months")) ∧
    (31536000 ≤ s → s < 3153600000 → format_time s =
      toString (Int.floor (s / 31536000)) ++
        (if Int.floor (s / 31536000) = 1 then " year" else " years")) ∧
    (3153600000 ≤ s → s < 31536000000 → format_time s = "Centuries") ∧
    (31536000000 ≤ s → format_time s = "Millennia+") := by
  refine ⟨?_, ?_, ?_, ?_, ?_, ?_, ?_, ?_, ?_, ?_⟩
  · intro h
    unfold format_time
    rw [if_pos h]
  · intro h1 h2
    unfold format_time
    rw [if_neg (by linarith), if_pos h2]
  · intro h1 h2
    unfold format_time
    rw [if_neg (by linarith), if_neg (by linarith), if_pos h2,
      pyInt_eq_floor s h0]
  · intro h1 h2
    unfold format_time
    rw [if_neg (by linarith), if_neg (by linarith), if_neg (by linarith),
      if_pos h2]
    rw [pyInt_eq_floor _ (by positivity)]
    exact plural_unit _ _
  · intro h1 h2
    unfold format_time
    rw [if_neg (by linarith), if_neg (by linarith), if_neg (by linarith),
      if_neg (by linarith), if_pos h2]
    rw [pyInt_eq_floor _ (by positivity)]
    exact plural_unit _ _
  · intro h1 h2
    unfold format_time
    rw [if_neg (by linarith), if_neg (by linarith), if_neg (by linarith),
      if_neg (by linarith), if_neg (by linarith), if_pos h2]
    rw [pyInt_eq_floor _ (by positivity)]
    exact plural_unit _ _
  · intro h1 h2
    unfold format_time
    rw [if_neg (by linarith), if_neg (by linarith), if_neg (by linarith),
      if_neg (by linarith), if_neg (by linarith), if_neg (by linarith),
      if_pos h2]
    rw [pyInt_eq_floor _ (by positivity)]
    exact plural_unit _ _
  · intro h1 h2
    unfold format_time
    rw [if_neg (by linarith), if_neg (by linarith), if_neg (by linarith),
      if_neg (by linarith), if_neg (by linarith), if_neg (by linarith),
      if_neg (by linarith), if_pos h2]
    rw [pyInt_eq_floor _ (by positivity)]
    exact plural_unit _ _
  · intro h1 h2
    unfold format_time
    rw [if_neg (by linarith), if_neg (by linarith), if_neg (by linarith),
      if_neg (by linarith), if_neg (by linarith), if_neg (by linarith),
      if_neg (by linarith), if_neg (by linarith), if_pos h2]
  · intro h1
    unfold format_time
    rw [if_neg (by linarith), if_neg (by linarith), if_neg (by linarith),
      if_neg (by linarith), if_neg (by linarith), if_neg (by linarith),
      if_neg (by linarith), if_neg (by linarith), if_neg (by linarith)]

/-- C6 witness: the minute band at 90 seconds produces the singular
"1 minute". -/
theorem format_time_bands_witness :
    (0 : ℝ) ≤ 90 ∧ (60 : ℝ) ≤ 90 ∧ (90 : ℝ) < 3600 ∧
      format_time 90 = "1 minute" := by
  refine ⟨by norm_num, by norm_num, by norm_num, ?_⟩
  have h := (format_time_bands 90 (by norm_num)).2.2.2.1 (by norm_num) (by norm_num)
  rw [h, show (⌊(90 : ℝ) / 60⌋ : ℤ) = 1 by norm_num]
  rfl

/-- C6 counterexample: at a duration of exactly 1 second the seconds
band prints the plural "1 seconds", not the singular the claim requires. -/
theorem format_time_one_second_plural :
    format_time 1 = "1 seconds" ∧ "1 seconds" ≠ "1 second" := by
  constructor
  · unfold format_time
    rw [if_neg (by norm_num), if_neg (by norm_num), if_pos (by norm_num),
      pyInt_eq_floor 1 (by norm_num), Int.floor_one]
    rfl
  · decide

/-! ## Recommendation generation -/

/-- Membership in a conditional singleton pins down the element. -/
theorem mem_ite_singleton {c : Prop} [Decidable c] {a s : String}
    (h : s ∈ if c then [a] else ([] : List String)) : s = a := by
  split at h
  · simpa using h
  · simp at h

/-- Every element of the built recommendation list is one of the eleven
fixed messages. -/
theorem mem_recommendations_list (a : AnalysisCore) (s : String)
    (h : s ∈ recommendations_list a) : s ∈ REC_MESSAGES := by
  unfold recommendations_list at h
  simp only [List.mem_append] at h
  rcases h with (((((((((h | h) | h) | h) | h) | h) | h) | h) | h) | h)
  · split at h
    · simp only [List.mem_singleton] at h
      simp [h, REC_MESSAGES]
    · split at h
      · simp only [List.mem_singleton] at h
        simp [h, REC_MESSAGES]
      · simp at h
  · simp [mem_ite_singleton h, REC_MESSAGES]
  · simp [mem_ite_singleton h, REC_MESSAGES]
  · simp [mem_ite_singleton h, REC_MESSAGES]
  · simp [mem_ite_singleton h, REC_MESSAGES]
  · simp [mem_ite_singleton h, REC_MESSAGES]
  · simp [mem_ite_singleton h, REC_MESSAGES]
  · simp [mem_ite_singleton h, REC_MESSAGES]
  · simp [mem_ite_singleton h, REC_MESSAGES]
  · simp [mem_ite_singleton h, REC_MESSAGES]

/-- The pattern-flag recommendations of `_generate_recommendations` over
an arbitrary analysis record: each of the four consulted flags
contributes its message, every output message is one of the eleven fixed
messages or the affirmation, and the affirmation appears only alone. -/
theorem generate_recommendations_flags (a : AnalysisCore) :
    (a.has_common_patterns = true →
      "Avoid common words and patterns" ∈ generate_recommendations a) ∧
    (a.has_sequential = true →
      "Avoid sequential characters (abc, 123)" ∈ generate_recommendations a) ∧
    (a.has_keyboard_patterns = true →
      "Avoid keyboard patterns (qwerty)" ∈ generate_recommendations a) ∧
    (a.has_repeated_chars = true →
      "Avoid repeated characters (aaa, 111)" ∈ generate_recommendations a) ∧
    (∀ s ∈ generate_recommendations a,
      s ∈ REC_MESSAGES ∨ s = "Password meets security best practices!") ∧
    ("Password meets security best practices!" ∈ generate_recommendations a →
      generate_recommendations a = ["Password meets security best practices!"]) := by
  have hflag : ∀ (msg : String), msg ∈ recommendations_list a →
      msg ∈ generate_recommendations a := by
    intro msg hmem
    unfold generate_recommendations
    rw [if_neg (List.ne_nil_of_mem hmem)]
    exact hmem
  refine ⟨?_, ?_, ?_, ?_, ?_, ?_⟩
  · intro h
    exact hflag _ (by unfold recommendations_list; simp [List.mem_append, h])
  · intro h
    exact hflag _ (by unfold recommendations_list; simp [List.mem_append, h])
  · intro h
    exact hflag _ (by unfold recommendations_list; simp [List.mem_append, h])
  · intro h
    exact hflag _ (by unfold recommendations_list; simp [List.mem_append, h])
  · intro s hs
    unfold generate_recommendations at hs
    split at hs
    · right; simpa using hs
    · left; exact mem_recommendations_list a s hs
  · intro h
    by_cases he : recommendations_list a = []
    · unfold generate_recommendations
      rw [if_pos he]
    · unfold generate_recommendations at h
      rw [if_neg he] at h
      exact absurd (mem_recommendations_list a _ h) (by decide)

/-- C7 (amended): for every non-empty password, the recommendations of
`analyze` contain one specific avoidance recommendation for each of the
four pattern flags common, sequential, keyboard and repeated characters
that is true in the report — the date-pattern and numeric-suffix flags
produce no recommendation — in addition to the length, missing-class and
entropy recommendations (every message is one of the eleven fixed ones);
the positive affirmation appears only when no other recommendation was
produced. -/
theorem analyze_recommendations_flags (p : List Char) (hp : p ≠ []) :
    ((analyze p).has_common_patterns = true →
      "Avoid common words and patterns" ∈ (analyze p).recommendations) ∧
    ((analyze p).has_sequential = true →
      "Avoid sequential characters (abc, 123)" ∈ (analyze p).recommendations) ∧
    ((analyze p).has_keyboard_patterns = true →
      "Avoid keyboard patterns (qwerty)" ∈ (analyze p).recommendations) ∧
    ((analyze p).has_repeated_chars = true →
      "Avoid repeated characters (aaa, 111)" ∈ (analyze p).recommendations) ∧
    (∀ s ∈ (analyze p).recommendations,
      s ∈ REC_MESSAGES ∨ s = "Password meets security best practices!") ∧
    ("Password meets security best practices!" ∈ (analyze p).recommendations →
      (analyze p).recommendations = ["Password meets security best practices!"]) := by
  have ha : (analyze p).recommendations = generate_recommendations (analyze_core p) := by
    unfold analyze; rw [if_neg hp]
  have hc : (analyze p).has_common_patterns = (analyze_core p).has_common_patterns := by
    unfold analyze; rw [if_neg hp]
  have hs : (analyze p).has_sequential = (analyze_core p).has_sequential := by
    unfold analyze; rw [if_neg hp]
  have hk : (analyze p).has_keyboard_patterns = (analyze_core p).has_keyboard_patterns := by
    unfold analyze; rw [if_neg hp]
  have hr : (analyze p).has_repeated_chars = (analyze_core p).has_repeated_chars := by
    unfold analyze; rw [if_neg hp]
  rw [ha, hc, hs, hk, hr]
  exact generate_recommendations_flags (analyze_core p)

/-- C7 witness: the theorem applied to the non-empty password
"password123". -/
theorem analyze_recommendations_flags_witness :
    "password123".toList ≠ [] ∧
      (∀ s ∈ (analyze "password123".toList).recommendations,
        s ∈ REC_MESSAGES ∨ s = "Password meets security best practices!") :=
  ⟨by decide,
   (analyze_recommendations_flags "password123".toList (by decide)).2.2.2.2.1⟩

/-- C7 counterexample: for the password "11/22/33" both the date-pattern
flag and the numeric-suffix flag are true, yet the recommendations list
contains no avoidance recommendation for either — it consists exactly of
the length and missing-class messages. -/
theorem analyze_date_suffix_no_recommendation :
    (analyze "11/22/33".toList).has_date_pattern = true ∧
    (analyze "11/22/33".toList).has_number_only_suffix = true ∧
    (analyze "11/22/33".toList).recommendations =
      ["Consider increasing length to 12+ characters",
       "Add uppercase letters (A-Z)",
       "Add lowercase letters (a-z)"] := by
  have hp : "11/22/33".toList ≠ [] := by decide
  have hd : (analyze "11/22/33".toList).has_date_pattern
      = (analyze_core "11/22/33".toList).has_date_pattern := by
    unfold analyze; rw [if_neg hp]
  have hn : (analyze "11/22/33".toList).has_number_only_suffix
      = (analyze_core "11/22/33".toList).has_number_only_suffix := by
    unfold analyze; rw [if_neg hp]
  have hrec : (analyze "11/22/33".toList).recommendations
      = generate_recommendations (analyze_core "11/22/33".toList) := by
    unfold analyze; rw [if_neg hp]
  have h32 : Real.logb 2 32 = 5 := by
    rw [show (32 : ℝ) = 2 ^ (5 : ℕ) by norm_num, Real.logb_pow,
      Real.logb_self_eq_one one_lt_two]
    norm_num
  have hlog : ¬((8 : ℝ) * Real.logb 2 42 < 40) := by
    have h5 : (5 : ℝ) ≤ Real.logb 2 42 := by
      rw [← h32]
      exact Real.logb_le_logb_of_le one_lt_two (by norm_num) (by norm_num)
    push_neg
    nlinarith
  have hent : (analyze_core "11/22/33".toList).entropy
      = (8 : ℝ) * Real.logb 2 42 := by
    show analyzer_entropy ("11/22/33".toList).length
        (has_uppercase_in "11/22/33".toList) (has_lowercase_in "11/22/33".toList)
        (has_numbers_in "11/22/33".toList) (has_symbols_in "11/22/33".toList) = _
    rw [show has_uppercase_in "11/22/33".toList = false from by decide,
      show has_lowercase_in "11/22/33".toList = false from by decide,
      show has_numbers_in "11/22/33".toList = true from by decide,
      show has_symbols_in "11/22/33".toList = true from by decide,
      show ("11/22/33".toList).length = 8 from by decide]
    unfold analyzer_entropy analyzer_charset_size
    norm_num
  refine ⟨by rw [hd]; decide, by rw [hn]; decide, ?_⟩
  rw [hrec]
  unfold generate_recommendations recommendations_list
  rw [hent,
    show (analyze_core "11/22/33".toList).length = 8 from by decide,
    show (analyze_core "11/22/33".toList).has_uppercase = false from by decide,
    show (analyze_core "11/22/33".toList).has_lowercase = false from by decide,
    show (analyze_core "11/22/33".toList).has_numbers = true from by decide,
    show (analyze_core "11/22/33".toList).has_symbols = true from by decide,
    show (analyze_core "11/22/33".toList).has_common_patterns = false from by decide,
    show (analyze_core "11/22/33".toList).has_sequential = false from by decide,
    show (analyze_core "11/22/33".toList).has_keyboard_patterns = false from by decide,
    show (analyze_core "11/22/33".toList).has_repeated_chars = false from by decide]
  simp [hlog]

/-! ## Policy validation -/

/-- C8: `validate` is valid exactly when its error list is empty; a
non-empty error list suppresses all warnings; and when there is no
error, the warnings are exactly the low-score advisory (score below 60)
and the symbols advisory (symbols neither required nor present), which
never affect validity. -/
theorem validate_spec (policy : PasswordPolicy) (password : List Char) :
    ((validate policy password).valid = true ↔
      (validate policy password).errors = []) ∧
    ((validate policy password).errors ≠ [] →
      (validate policy password).warnings = []) ∧
    ((validate policy password).errors = [] →
      (((analyze password).score < 60 →
        "Password is weak. Consider making it stronger."
          ∈ (validate policy password).warnings) ∧
      ((policy.require_symbols = false ∧ (analyze password).has_symbols = false) →
        "Adding symbols would significantly improve strength"
          ∈ (validate policy password).warnings) ∧
      (∀ w ∈ (validate policy password).warnings,
        w = "Password is weak. Consider making it stronger." ∨
        w = "Adding symbols would significantly improve strength"))) := by
  have he : (validate policy password).errors = validate_errors policy password := rfl
  have hw : (validate policy password).warnings = validate_warnings policy password := rfl
  have hv : (validate policy password).valid
      = (validate_errors policy password).isEmpty := rfl
  refine ⟨?_, ?_, ?_⟩
  · rw [he, hv]
    exact List.isEmpty_iff
  · intro h
    rw [he] at h
    rw [hw]
    unfold validate_warnings
    rw [if_neg h]
  · intro h
    rw [he] at h
    rw [hw]
    unfold validate_warnings
    rw [if_pos h]
    refine ⟨?_, ?_, ?_⟩
    · intro hs
      simp [List.mem_append, hs]
    · intro hsym
      simp [List.mem_append, hsym.1, hsym.2]
    · intro w hwmem
      rcases List.mem_append.mp hwmem with h1 | h1
      · exact Or.inl (mem_ite_singleton h1)
      · exact Or.inr (mem_ite_singleton h1)

/-- C8 witness: the default policy rejects "abc" (too short among other
violations), so its warnings list is empty. -/
theorem validate_spec_witness :
    (validate {} "abc".toList).errors ≠ [] ∧
      (validate {} "abc".toList).warnings = [] := by
  have herr : (validate {} "abc".toList).errors ≠ [] := by
    show validate_errors {} "abc".toList ≠ []
    intro h
    simp only [validate_errors, List.append_eq_nil] at h
    exact absurd h.1.1.1.1.1.1.1.1 (by decide)
  exact ⟨herr, (validate_spec {} "abc".toList).2.1 herr⟩

/-! ## Analyzer class coverage -/

/-- C10: every character falls into at least one of the four classes
(the symbol class being the complement of the other three), so for a
non-empty password the analyzer's derived alphabet size is non-zero (the
zero-charset branch of the entropy computation is unreachable), the
entropy is strictly positive, and the diversity score is at least 1/4. -/
theorem analyzer_classes_cover (p : List Char) (hp : p ≠ []) :
    (∀ c ∈ p, isUpperChar c = true ∨ isLowerChar c = true ∨
      isDigitChar c = true ∨ isSymbolChar c = true) ∧
    analyzer_charset_size (has_uppercase_in p) (has_lowercase_in p)
      (has_numbers_in p) (has_symbols_in p) ≠ 0 ∧
    0 < (analyze p).entropy ∧
    1 / 4 ≤ (analyze p).diversity_score := by
  have cover : ∀ c ∈ p, isUpperChar c = true ∨ isLowerChar c = true ∨
      isDigitChar c = true ∨ isSymbolChar c = true := by
    intro c _
    by_cases h1 : isUpperChar c = true
    · exact Or.inl h1
    · by_cases h2 : isLowerChar c = true
      · exact Or.inr (Or.inl h2)
      · by_cases h3 : isDigitChar c = true
        · exact Or.inr (Or.inr (Or.inl h3))
        · refine Or.inr (Or.inr (Or.inr ?_))
          rw [Bool.not_eq_true] at h1 h2 h3
          unfold isSymbolChar
          rw [h1, h2, h3]
          rfl
  have hflag : has_uppercase_in p = true ∨ has_lowercase_in p = true ∨
      has_numbers_in p = true ∨ has_symbols_in p = true := by
    obtain ⟨c, hc⟩ : ∃ c, c ∈ p := by
      rcases p with _ | ⟨c, r⟩
      · exact absurd rfl hp
      · exact ⟨c, List.mem_cons_self c r⟩
    rcases cover c hc with h | h | h | h
    · exact Or.inl (List.any_eq_true.mpr ⟨c, hc, h⟩)
    · exact Or.inr (Or.inl (List.any_eq_true.mpr ⟨c, hc, h⟩))
    · exact Or.inr (Or.inr (Or.inl (List.any_eq_true.mpr ⟨c, hc, h⟩)))
    · exact Or.inr (Or.inr (Or.inr (List.any_eq_true.mpr ⟨c, hc, h⟩)))
  have key : 2 ≤ analyzer_charset_size (has_uppercase_in p) (has_lowercase_in p)
        (has_numbers_in p) (has_symbols_in p) ∧
      1 ≤ (has_uppercase_in p).toNat + (has_lowercase_in p).toNat
        + (has_numbers_in p).toNat + (has_symbols_in p).toNat := by
    cases h1 : has_uppercase_in p <;> cases h2 : has_lowercase_in p <;>
      cases h3 : has_numbers_in p <;> cases h4 : has_symbols_in p <;>
      simp_all [analyzer_charset_size]
  have hent1 : (analyze p).entropy = (analyze_core p).entropy := by
    unfold analyze; rw [if_neg hp]
  have hent2 : (analyze_core p).entropy = analyzer_entropy p.length
      (has_uppercase_in p) (has_lowercase_in p) (has_numbers_in p)
      (has_symbols_in p) := rfl
  have hdiv1 : (analyze p).diversity_score = (analyze_core p).diversity_score := by
    unfold analyze; rw [if_neg hp]
  have hdiv2 : (analyze_core p).diversity_score = calculate_diversity
      (has_uppercase_in p) (has_lowercase_in p) (has_numbers_in p)
      (has_symbols_in p) := rfl
  refine ⟨cover, by omega, ?_, ?_⟩
  · rw [hent1, hent2]
    simp only [analyzer_entropy]
    rw [if_neg (by omega)]
    apply mul_pos
    · exact_mod_cast List.length_pos.mpr hp
    · exact Real.logb_pos one_lt_two
        (by exact_mod_cast (by omega : 1 < analyzer_charset_size
          (has_uppercase_in p) (has_lowercase_in p) (has_numbers_in p)
          (has_symbols_in p)))
  · rw [hdiv1, hdiv2]
    unfold calculate_diversity
    have h1 : (1 : ℝ) ≤ ((has_uppercase_in p).toNat + (has_lowercase_in p).toNat
        + (has_numbers_in p).toNat + (has_symbols_in p).toNat : ℕ) := by
      exact_mod_cast key.2
    gcongr

/-- C10 witness: the theorem applied to the one-character password "a". -/
theorem analyzer_classes_cover_witness :
    "a".toList ≠ [] ∧ 0 < (analyze "a".toList).entropy :=
  ⟨by decide, (analyzer_classes_cover "a".toList (by decide)).2.2.1⟩
